import Mathlib

set_option maxRecDepth 4000

/-!
# Verification of the elevator emulator core (`Elevator-Emulator.c`)

A shallow embedding of the time-driven elevator state machine:

* the timer-1 compare-match interrupt handler (`ISR(TIMER1_COMPA_vect)`,
  source lines 298-354), which advances the button feedback timer and the
  three-phase door animation sequencer, modelled by `tick`;
* the body of the main loop of `start_elevator_emulator` (lines 239-295),
  modelled by `mainIter`, with its sub-steps `movePhase`, `handleInputs`,
  `pickupAssign`, `handleDisplays`, `pickupTrigger`, `dropoff`, `boarding`.

Modelling conventions:

* `uint8_t` / `uint16_t` counters are `Nat` with an explicit `% 256` /
  `% 65536` at every increment that could overflow; `ElevatorFloor`
  coordinates (an `int`-backed C enum) are `Int`.
* Calls to the excluded display collaborators (`update_square_colour`,
  terminal output, the seven-segment port writes) are pure sinks; the cell
  writes that the dispatch protocol itself performs are recorded as a list
  of `DispAct` values so that theorems can speak about them, the rest are
  dropped.  The tone generator's PWM registers are abstracted into a
  `sound : Option Nat` field holding the `OCR2A` value (41 for the 3 kHz
  button-confirmation tone, 249 for the 500 Hz pickup/dropoff tone,
  `none` for silence), exactly the values written by `start_3kHz_sound`,
  `start_500Hz_sound` and `stop_sound` (lines 545-564).
* Interleaving between the interrupt and the main loop is modelled at
  iteration granularity: a system step is either one interrupt firing
  (`tick`) or one main-loop iteration (`mainIter`).  Per-iteration inputs
  (the elapsed-time test, button, serial byte, switch value) are sampled
  into a `MainInput`.
-/

/-- Colours passed to `update_square_colour`.  `TRAVELLER_TO_k` (from the
excluded display header) is `travellerTo k`; `EMPTY_SQUARE` is `empty`. -/
inductive Colour where
  | empty : Colour
  | travellerTo : Nat → Colour
deriving DecidableEq, Repr

/-- One call `update_square_colour(x, y, colour)` recorded by the model. -/
structure DispAct where
  x : Nat
  y : Int
  colour : Colour
deriving DecidableEq, Repr

/-- The global mutable state of `Elevator-Emulator.c` (lines 37-55) that the
core reads or writes.  Coordinates are `Int` (the `ElevatorFloor` enum:
`FLOOR_k` is `4*k`); the `uint8_t` travel counters and the `uint8_t` /
`uint16_t` timers are `Nat` kept in range by explicit moduli at increments. -/
structure CState where
  current_position : Int
  destination : Int
  direction_change : Int
  old_direction_change : Int
  old_floor : Int
  current_floor : Int
  traveller_active : Bool
  traveller_onboard : Bool
  traveller_floor : Int
  floors_w_traveller : Nat
  floors_no_traveller : Nat
  digit : Nat
  floor_just_reached : Bool
  animation_phase : Nat
  animation_timer : Nat
  elevator_door_open : Bool
  button_just_pushed : Bool
  button_timer : Nat
  sound : Option Nat
deriving DecidableEq, Repr

/-- Inputs sampled by one main-loop iteration: whether
`get_current_time() - time_since_move > speed` held (line 249), the value of
`button_pushed()` stored into a `uint8_t` (255 when no button), the serial
byte (`-1` when none), and the switch-derived `floor_choice` (lines 264-265,
always `0..3` in hardware). -/
structure MainInput where
  moveElapsed : Bool
  btn : Nat
  serial_input : Int
  floor_choice : Nat
deriving DecidableEq, Repr

/-- Lines 252-256: move `current_position` one coordinate unit toward
`destination`, or leave it when they coincide. -/
def moveStep (pos dest : Int) : Int :=
  if 0 < dest - pos then pos + 1
  else if dest - pos < 0 then pos - 1
  else pos

/-- Line 422: `ElevatorFloor floors[] = {FLOOR_0, FLOOR_1, FLOOR_2, FLOOR_3}`. -/
def floors : List Int := [0, 4, 8, 12]

/-- Line 423: `uint16_t colours[] = {TRAVELLER_TO_0, .., TRAVELLER_TO_3}`. -/
def colours : List Colour :=
  [Colour.travellerTo 0, Colour.travellerTo 1, Colour.travellerTo 2, Colour.travellerTo 3]

/-- One iteration `i` of the `for` loop of `handle_inputs` (lines 427-437):
if the button or the serial byte selects floor `i` and no traveller is active
and `i` differs from `floor_choice`, place a traveller at floor `i` and
record the waiting-traveller marker cell write. -/
def handleInputsStep (btn : Nat) (serial_input : Int) (floor_choice : Nat)
    (sa : CState × List DispAct) (i : Nat) : CState × List DispAct :=
  if btn = i ∨ serial_input = 48 + (i : Int) then
    if sa.1.traveller_active = false ∧ i ≠ floor_choice then
      ({sa.1 with
          destination := floors.getD i 0,
          traveller_active := true,
          traveller_floor := floors.getD i 0,
          button_just_pushed := true},
       sa.2 ++ [⟨5, 4 * (i : Int) + 1, colours.getD floor_choice Colour.empty⟩])
    else sa
  else sa

/-- `handle_inputs` (lines 410-438) for an already-sampled button value and
serial byte: the `for (int i = 0; i < 4; i++)` loop over the four floors. -/
def handleInputs (btn : Nat) (serial_input : Int) (floor_choice : Nat)
    (s : CState) : CState × List DispAct :=
  [0, 1, 2, 3].foldl (handleInputsStep btn serial_input floor_choice) (s, [])

/-- The sticky current-floor update of lines 447-450: `current_floor`
becomes `current_position` whenever the car sits exactly on a floor
coordinate, and is retained otherwise. -/
def stickyFloor (s : CState) : Int :=
  if s.current_position = 0 ∨ s.current_position = 4 ∨ s.current_position = 8 ∨
      s.current_position = 12 then
    s.current_position
  else s.current_floor

/-- `handle_displays` (lines 440-472).  `direction_change` is a `uint8_t`,
hence the `emod 256` on the coordinate difference.  The travel counters are
`uint8_t`, hence `% 256` on their increments.  The conditional
`display_information()` call (line 467) only writes terminal text (a pure
sink) and is dropped. -/
def handleDisplays (s : CState) : CState :=
  let dc := (s.destination - s.current_position).emod 256
  let cf := stickyFloor s
  let w :=
    if s.old_floor ≠ cf ∧ s.traveller_onboard = true then
      (s.floors_w_traveller + 1) % 256
    else s.floors_w_traveller
  let n :=
    if s.old_floor ≠ cf ∧ s.traveller_onboard = false then
      (s.floors_no_traveller + 1) % 256
    else s.floors_no_traveller
  {s with
     direction_change := dc,
     current_floor := cf,
     floors_w_traveller := w,
     floors_no_traveller := n,
     old_direction_change := dc,
     old_floor := cf}

/-- Lines 249-262: the movement block, run when the move interval has
elapsed and no door animation is in progress.  `draw_elevator()` only
repaints the excluded LED matrix and is dropped. -/
def movePhase (elapsed : Bool) (s : CState) : CState :=
  if elapsed = true ∧ s.floor_just_reached = false then
    {s with current_position := moveStep s.current_position s.destination}
  else s

/-- Lines 271-273: on reaching the waiting traveller, re-aim `destination`
at `floor_choice * 4`, the floor currently selected by the switches. -/
def pickupAssign (floor_choice : Nat) (s : CState) : CState :=
  if s.traveller_active = true ∧ s.traveller_floor = s.current_position then
    {s with destination := (floor_choice : Int) * 4}
  else s

/-- Lines 279-281: start the door animation when the car reaches the
waiting traveller. -/
def pickupTrigger (s : CState) : CState :=
  if s.traveller_active = true ∧ s.traveller_floor = s.current_position then
    {s with floor_just_reached := true}
  else s

/-- Lines 284-288: drop the traveller off, starting the animation and
clearing the flags at trigger time. -/
def dropoff (s : CState) : CState :=
  if s.traveller_onboard = true ∧ s.current_position = s.destination then
    {s with floor_just_reached := true, traveller_onboard := false,
            traveller_active := false}
  else s

/-- Lines 291-294: take the traveller inside once the doors are open,
erasing the waiting marker. -/
def boarding (s : CState) (acts : List DispAct) : CState × List DispAct :=
  if s.traveller_active = true ∧ s.traveller_floor = s.current_position ∧
      s.elevator_door_open = true then
    ({s with traveller_onboard := true},
     acts ++ [⟨5, s.traveller_floor + 1, Colour.empty⟩])
  else (s, acts)

/-- Lines 263-289: the `if (!floor_just_reached)` block of the main loop. -/
def mainBlock (inp : MainInput) (s : CState) : CState × List DispAct :=
  if s.floor_just_reached = false then
    let hi := handleInputs inp.btn inp.serial_input inp.floor_choice s
    (dropoff (pickupTrigger (handleDisplays (pickupAssign inp.floor_choice hi.1))),
     hi.2)
  else (s, [])

/-- One full iteration of the `while(true)` loop of
`start_elevator_emulator` (lines 239-295): movement block, the
`!floor_just_reached` block, then the boarding check. -/
def mainIter (inp : MainInput) (s : CState) : CState × List DispAct :=
  let s1 := movePhase inp.moveElapsed s
  let b := mainBlock inp s1
  boarding b.1 b.2

/-- Lines 298-317 of the interrupt handler: seven-segment digit toggle,
animation-timer and button-timer advance, and the button feedback tone
(3 kHz start at tick 1, reset and silence at tick 100).  Timers are
`uint16_t` / `uint8_t`, hence the moduli. -/
def tickPre (s : CState) : CState :=
  let a := {s with digit := 1 - s.digit}
  let b :=
    if a.floor_just_reached = true then
      {a with animation_timer := (a.animation_timer + 1) % 65536}
    else a
  let c :=
    if b.button_just_pushed = true then
      {b with button_timer := (b.button_timer + 1) % 256}
    else b
  let d := if c.button_timer = 1 then {c with sound := some 41} else c
  if 100 ≤ d.button_timer then
    {d with button_timer := 0, button_just_pushed := false, sound := none}
  else d

/-- Lines 318-353 of the interrupt handler: the `switch (animation_phase)`
door-animation state machine.  Phase 0 waits 800 ticks, phase 1 opens the
doors and plays the 500 Hz tone (stopped at tick 100), phase 2 closes them;
each phase ends at tick 800.  The door-LED port writes accompany
`elevator_door_open` and are subsumed by it. -/
def tickAnim (s : CState) : CState :=
  if s.animation_phase = 0 then
    if 800 ≤ s.animation_timer then {s with animation_phase := 1, animation_timer := 0}
    else s
  else if s.animation_phase = 1 then
    let s1 :=
      if s.animation_timer = 1 then
        {s with elevator_door_open := true, sound := some 249}
      else s
    let s2 := if s1.animation_timer = 100 then {s1 with sound := none} else s1
    if 800 ≤ s2.animation_timer then {s2 with animation_phase := 2, animation_timer := 0}
    else s2
  else if s.animation_phase = 2 then
    let s1 :=
      if s.animation_timer = 1 then {s with elevator_door_open := false} else s
    if 800 ≤ s1.animation_timer then
      {s1 with animation_phase := 0, animation_timer := 0, floor_just_reached := false}
    else s1
  else s

/-- One firing of `ISR(TIMER1_COMPA_vect)` (lines 298-354). -/
def tick (s : CState) : CState :=
  tickAnim (tickPre s)

/-- The sequencer trigger of the specification: the main loop raises it by
setting `floor_just_reached` (lines 280 and 285). -/
def trigger (s : CState) : CState :=
  {s with floor_just_reached := true}

/-- The state after `start_elevator_emulator`'s initialisation (lines
227-237) on top of the zero-initialised globals. -/
def initState : CState where
  current_position := 0
  destination := 0
  direction_change := 0
  old_direction_change := 0
  old_floor := 0
  current_floor := 0
  traveller_active := false
  traveller_onboard := false
  traveller_floor := 0
  floors_w_traveller := 0
  floors_no_traveller := 0
  digit := 0
  floor_just_reached := false
  animation_phase := 0
  animation_timer := 0
  elevator_door_open := false
  button_just_pushed := false
  button_timer := 0
  sound := none

/-- `n` consecutive interrupt firings. -/
def ticks (n : Nat) (s : CState) : CState :=
  match n with
  | 0 => s
  | n + 1 => tick (ticks n s)

/-- Run a sequence of main-loop iterations (discarding display actions). -/
def runMain (l : List MainInput) (s : CState) : CState :=
  l.foldl (fun st inp => (mainIter inp st).1) s

/-- The sequencer state `k` ticks after a trigger raised in the idle
initial state, for `k` at most 799: still IDLE, with the timer counting and
the seven-segment digit selector toggling. -/
def idleAt (k : Nat) : CState :=
  {initState with floor_just_reached := true, animation_timer := k, digit := k % 2}

/-- The state on entering the OPENING phase, exactly 800 ticks after a
trigger raised in the idle initial state. -/
def openingEntry : CState :=
  {initState with floor_just_reached := true, animation_phase := 1}

/-- The sequencer state `k` ticks into the OPENING phase, for `1 <= k <= 799`:
doors open, the 500 Hz tone playing up to tick 99 and stopped from
tick 100. -/
def openingAt (k : Nat) : CState :=
  {openingEntry with
     animation_timer := k,
     digit := k % 2,
     elevator_door_open := true,
     sound := if k ≤ 99 then some 249 else none}

/-- States reachable from initialisation by any interleaving of interrupt
firings and main-loop iterations (interleaving at iteration granularity). -/
inductive Reachable : CState → Prop where
  | base : Reachable initState
  | isr {s : CState} : Reachable s → Reachable (tick s)
  | loop {s : CState} (inp : MainInput) : Reachable s → Reachable ((mainIter inp s).1)

/-- The inductive invariant of the door sequencer: the phase stays in
`{0,1,2}`, the phase timer stays below 800, the doors are open exactly from
the first tick of the opening phase through tick 0 of the closing phase,
and when no animation is pending the sequencer is fully idle. -/
def AnimInv (s : CState) : Prop :=
  s.animation_phase ≤ 2 ∧
  s.animation_timer ≤ 799 ∧
  (s.elevator_door_open = true ↔
    ((s.animation_phase = 1 ∧ 1 ≤ s.animation_timer) ∨
     (s.animation_phase = 2 ∧ s.animation_timer = 0))) ∧
  (s.floor_just_reached = false → s.animation_phase = 0 ∧ s.animation_timer = 0)

/-- The sequencer facts claimed of every reachable state: phase bounded,
doors open exactly from opening-tick-1 through closing-tick-0, an interrupt
moves the phase only to itself or to the next phase of the
IDLE→OPENING→CLOSING→IDLE cycle, a main-loop iteration never moves the
phase, and a trigger during OPENING or CLOSING is a no-op. -/
def SeqInv (s : CState) : Prop :=
  s.animation_phase ≤ 2 ∧
  (s.elevator_door_open = true ↔
    ((s.animation_phase = 1 ∧ 1 ≤ s.animation_timer) ∨
     (s.animation_phase = 2 ∧ s.animation_timer = 0))) ∧
  ((tick s).animation_phase = s.animation_phase ∨
   (tick s).animation_phase = (s.animation_phase + 1) % 3) ∧
  (∀ inp : MainInput, ((mainIter inp s).1).animation_phase = s.animation_phase) ∧
  ((s.animation_phase = 1 ∨ s.animation_phase = 2) → trigger s = s)

/-! ## Field-preservation lemmas for the components -/

@[simp] theorem handleInputsStep_pos (btn : Nat) (si : Int) (fc : Nat)
    (sa : CState × List DispAct) (i : Nat) :
    (handleInputsStep btn si fc sa i).1.current_position = sa.1.current_position := by
  unfold handleInputsStep; split_ifs <;> rfl

@[simp] theorem handleInputsStep_onboard (btn : Nat) (si : Int) (fc : Nat)
    (sa : CState × List DispAct) (i : Nat) :
    (handleInputsStep btn si fc sa i).1.traveller_onboard = sa.1.traveller_onboard := by
  unfold handleInputsStep; split_ifs <;> rfl

@[simp] theorem handleInputsStep_fjr (btn : Nat) (si : Int) (fc : Nat)
    (sa : CState × List DispAct) (i : Nat) :
    (handleInputsStep btn si fc sa i).1.floor_just_reached = sa.1.floor_just_reached := by
  unfold handleInputsStep; split_ifs <;> rfl

@[simp] theorem handleInputsStep_phase (btn : Nat) (si : Int) (fc : Nat)
    (sa : CState × List DispAct) (i : Nat) :
    (handleInputsStep btn si fc sa i).1.animation_phase = sa.1.animation_phase := by
  unfold handleInputsStep; split_ifs <;> rfl

@[simp] theorem handleInputsStep_timer (btn : Nat) (si : Int) (fc : Nat)
    (sa : CState × List DispAct) (i : Nat) :
    (handleInputsStep btn si fc sa i).1.animation_timer = sa.1.animation_timer := by
  unfold handleInputsStep; split_ifs <;> rfl

@[simp] theorem handleInputsStep_door (btn : Nat) (si : Int) (fc : Nat)
    (sa : CState × List DispAct) (i : Nat) :
    (handleInputsStep btn si fc sa i).1.elevator_door_open = sa.1.elevator_door_open := by
  unfold handleInputsStep; split_ifs <;> rfl

@[simp] theorem handleInputsStep_w (btn : Nat) (si : Int) (fc : Nat)
    (sa : CState × List DispAct) (i : Nat) :
    (handleInputsStep btn si fc sa i).1.floors_w_traveller = sa.1.floors_w_traveller := by
  unfold handleInputsStep; split_ifs <;> rfl

@[simp] theorem handleInputsStep_n (btn : Nat) (si : Int) (fc : Nat)
    (sa : CState × List DispAct) (i : Nat) :
    (handleInputsStep btn si fc sa i).1.floors_no_traveller = sa.1.floors_no_traveller := by
  unfold handleInputsStep; split_ifs <;> rfl

@[simp] theorem handleInputs_pos (btn : Nat) (si : Int) (fc : Nat) (s : CState) :
    (handleInputs btn si fc s).1.current_position = s.current_position := by
  simp [handleInputs, List.foldl]

@[simp] theorem handleInputs_onboard (btn : Nat) (si : Int) (fc : Nat) (s : CState) :
    (handleInputs btn si fc s).1.traveller_onboard = s.traveller_onboard := by
  simp [handleInputs, List.foldl]

@[simp] theorem handleInputs_fjr (btn : Nat) (si : Int) (fc : Nat) (s : CState) :
    (handleInputs btn si fc s).1.floor_just_reached = s.floor_just_reached := by
  simp [handleInputs, List.foldl]

@[simp] theorem handleInputs_phase (btn : Nat) (si : Int) (fc : Nat) (s : CState) :
    (handleInputs btn si fc s).1.animation_phase = s.animation_phase := by
  simp [handleInputs, List.foldl]

@[simp] theorem handleInputs_timer (btn : Nat) (si : Int) (fc : Nat) (s : CState) :
    (handleInputs btn si fc s).1.animation_timer = s.animation_timer := by
  simp [handleInputs, List.foldl]

@[simp] theorem handleInputs_door (btn : Nat) (si : Int) (fc : Nat) (s : CState) :
    (handleInputs btn si fc s).1.elevator_door_open = s.elevator_door_open := by
  simp [handleInputs, List.foldl]

@[simp] theorem movePhase_dest (e : Bool) (s : CState) :
    (movePhase e s).destination = s.destination := by
  unfold movePhase; split_ifs <;> rfl

@[simp] theorem movePhase_active (e : Bool) (s : CState) :
    (movePhase e s).traveller_active = s.traveller_active := by
  unfold movePhase; split_ifs <;> rfl

@[simp] theorem movePhase_onboard (e : Bool) (s : CState) :
    (movePhase e s).traveller_onboard = s.traveller_onboard := by
  unfold movePhase; split_ifs <;> rfl

@[simp] theorem movePhase_tf (e : Bool) (s : CState) :
    (movePhase e s).traveller_floor = s.traveller_floor := by
  unfold movePhase; split_ifs <;> rfl

@[simp] theorem movePhase_fjr (e : Bool) (s : CState) :
    (movePhase e s).floor_just_reached = s.floor_just_reached := by
  unfold movePhase; split_ifs <;> rfl

@[simp] theorem movePhase_phase (e : Bool) (s : CState) :
    (movePhase e s).animation_phase = s.animation_phase := by
  unfold movePhase; split_ifs <;> rfl

@[simp] theorem movePhase_timer (e : Bool) (s : CState) :
    (movePhase e s).animation_timer = s.animation_timer := by
  unfold movePhase; split_ifs <;> rfl

@[simp] theorem movePhase_door (e : Bool) (s : CState) :
    (movePhase e s).elevator_door_open = s.elevator_door_open := by
  unfold movePhase; split_ifs <;> rfl

@[simp] theorem pickupAssign_pos (fc : Nat) (s : CState) :
    (pickupAssign fc s).current_position = s.current_position := by
  unfold pickupAssign; split_ifs <;> rfl

@[simp] theorem pickupAssign_active (fc : Nat) (s : CState) :
    (pickupAssign fc s).traveller_active = s.traveller_active := by
  unfold pickupAssign; split_ifs <;> rfl

@[simp] theorem pickupAssign_onboard (fc : Nat) (s : CState) :
    (pickupAssign fc s).traveller_onboard = s.traveller_onboard := by
  unfold pickupAssign; split_ifs <;> rfl

@[simp] theorem pickupAssign_tf (fc : Nat) (s : CState) :
    (pickupAssign fc s).traveller_floor = s.traveller_floor := by
  unfold pickupAssign; split_ifs <;> rfl

@[simp] theorem pickupAssign_fjr (fc : Nat) (s : CState) :
    (pickupAssign fc s).floor_just_reached = s.floor_just_reached := by
  unfold pickupAssign; split_ifs <;> rfl

@[simp] theorem pickupAssign_phase (fc : Nat) (s : CState) :
    (pickupAssign fc s).animation_phase = s.animation_phase := by
  unfold pickupAssign; split_ifs <;> rfl

@[simp] theorem pickupAssign_timer (fc : Nat) (s : CState) :
    (pickupAssign fc s).animation_timer = s.animation_timer := by
  unfold pickupAssign; split_ifs <;> rfl

@[simp] theorem pickupAssign_door (fc : Nat) (s : CState) :
    (pickupAssign fc s).elevator_door_open = s.elevator_door_open := by
  unfold pickupAssign; split_ifs <;> rfl

@[simp] theorem handleDisplays_pos (s : CState) :
    (handleDisplays s).current_position = s.current_position := by
  rfl

@[simp] theorem handleDisplays_dest (s : CState) :
    (handleDisplays s).destination = s.destination := by
  rfl

@[simp] theorem handleDisplays_active (s : CState) :
    (handleDisplays s).traveller_active = s.traveller_active := by
  rfl

@[simp] theorem handleDisplays_onboard (s : CState) :
    (handleDisplays s).traveller_onboard = s.traveller_onboard := by
  rfl

@[simp] theorem handleDisplays_tf (s : CState) :
    (handleDisplays s).traveller_floor = s.traveller_floor := by
  rfl

@[simp] theorem handleDisplays_fjr (s : CState) :
    (handleDisplays s).floor_just_reached = s.floor_just_reached := by
  rfl

@[simp] theorem handleDisplays_phase (s : CState) :
    (handleDisplays s).animation_phase = s.animation_phase := by
  rfl

@[simp] theorem handleDisplays_timer (s : CState) :
    (handleDisplays s).animation_timer = s.animation_timer := by
  rfl

@[simp] theorem handleDisplays_door (s : CState) :
    (handleDisplays s).elevator_door_open = s.elevator_door_open := by
  rfl

@[simp] theorem pickupTrigger_pos (s : CState) :
    (pickupTrigger s).current_position = s.current_position := by
  unfold pickupTrigger; split_ifs <;> rfl

@[simp] theorem pickupTrigger_dest (s : CState) :
    (pickupTrigger s).destination = s.destination := by
  unfold pickupTrigger; split_ifs <;> rfl

@[simp] theorem pickupTrigger_active (s : CState) :
    (pickupTrigger s).traveller_active = s.traveller_active := by
  unfold pickupTrigger; split_ifs <;> rfl

@[simp] theorem pickupTrigger_onboard (s : CState) :
    (pickupTrigger s).traveller_onboard = s.traveller_onboard := by
  unfold pickupTrigger; split_ifs <;> rfl

@[simp] theorem pickupTrigger_tf (s : CState) :
    (pickupTrigger s).traveller_floor = s.traveller_floor := by
  unfold pickupTrigger; split_ifs <;> rfl

@[simp] theorem pickupTrigger_phase (s : CState) :
    (pickupTrigger s).animation_phase = s.animation_phase := by
  unfold pickupTrigger; split_ifs <;> rfl

@[simp] theorem pickupTrigger_timer (s : CState) :
    (pickupTrigger s).animation_timer = s.animation_timer := by
  unfold pickupTrigger; split_ifs <;> rfl

@[simp] theorem pickupTrigger_door (s : CState) :
    (pickupTrigger s).elevator_door_open = s.elevator_door_open := by
  unfold pickupTrigger; split_ifs <;> rfl

@[simp] theorem dropoff_pos (s : CState) :
    (dropoff s).current_position = s.current_position := by
  unfold dropoff; split_ifs <;> rfl

@[simp] theorem dropoff_dest (s : CState) :
    (dropoff s).destination = s.destination := by
  unfold dropoff; split_ifs <;> rfl

@[simp] theorem dropoff_tf (s : CState) :
    (dropoff s).traveller_floor = s.traveller_floor := by
  unfold dropoff; split_ifs <;> rfl

@[simp] theorem dropoff_phase (s : CState) :
    (dropoff s).animation_phase = s.animation_phase := by
  unfold dropoff; split_ifs <;> rfl

@[simp] theorem dropoff_timer (s : CState) :
    (dropoff s).animation_timer = s.animation_timer := by
  unfold dropoff; split_ifs <;> rfl

@[simp] theorem dropoff_door (s : CState) :
    (dropoff s).elevator_door_open = s.elevator_door_open := by
  unfold dropoff; split_ifs <;> rfl

@[simp] theorem boarding_pos (s : CState) (a : List DispAct) :
    (boarding s a).1.current_position = s.current_position := by
  unfold boarding; split_ifs <;> rfl

@[simp] theorem boarding_dest (s : CState) (a : List DispAct) :
    (boarding s a).1.destination = s.destination := by
  unfold boarding; split_ifs <;> rfl

@[simp] theorem boarding_active (s : CState) (a : List DispAct) :
    (boarding s a).1.traveller_active = s.traveller_active := by
  unfold boarding; split_ifs <;> rfl

@[simp] theorem boarding_tf (s : CState) (a : List DispAct) :
    (boarding s a).1.traveller_floor = s.traveller_floor := by
  unfold boarding; split_ifs <;> rfl

@[simp] theorem boarding_fjr (s : CState) (a : List DispAct) :
    (boarding s a).1.floor_just_reached = s.floor_just_reached := by
  unfold boarding; split_ifs <;> rfl

@[simp] theorem boarding_phase (s : CState) (a : List DispAct) :
    (boarding s a).1.animation_phase = s.animation_phase := by
  unfold boarding; split_ifs <;> rfl

@[simp] theorem boarding_timer (s : CState) (a : List DispAct) :
    (boarding s a).1.animation_timer = s.animation_timer := by
  unfold boarding; split_ifs <;> rfl

@[simp] theorem boarding_door (s : CState) (a : List DispAct) :
    (boarding s a).1.elevator_door_open = s.elevator_door_open := by
  unfold boarding; split_ifs <;> rfl

@[simp] theorem tickPre_phase (s : CState) :
    (tickPre s).animation_phase = s.animation_phase := by
  simp only [tickPre]; split_ifs <;> rfl

@[simp] theorem tickPre_door (s : CState) :
    (tickPre s).elevator_door_open = s.elevator_door_open := by
  simp only [tickPre]; split_ifs <;> rfl

@[simp] theorem tickPre_fjr (s : CState) :
    (tickPre s).floor_just_reached = s.floor_just_reached := by
  simp only [tickPre]; split_ifs <;> rfl

@[simp] theorem tickPre_pos (s : CState) :
    (tickPre s).current_position = s.current_position := by
  simp only [tickPre]; split_ifs <;> rfl

@[simp] theorem tickPre_w (s : CState) :
    (tickPre s).floors_w_traveller = s.floors_w_traveller := by
  simp only [tickPre]; split_ifs <;> rfl

@[simp] theorem tickPre_n (s : CState) :
    (tickPre s).floors_no_traveller = s.floors_no_traveller := by
  simp only [tickPre]; split_ifs <;> rfl

theorem tickPre_timer (s : CState) :
    (tickPre s).animation_timer =
      if s.floor_just_reached = true then (s.animation_timer + 1) % 65536
      else s.animation_timer := by
  simp only [tickPre]; split_ifs <;> simp_all

@[simp] theorem tickAnim_pos (s : CState) :
    (tickAnim s).current_position = s.current_position := by
  simp only [tickAnim]; split_ifs <;> rfl

@[simp] theorem tickAnim_w (s : CState) :
    (tickAnim s).floors_w_traveller = s.floors_w_traveller := by
  simp only [tickAnim]; split_ifs <;> rfl

@[simp] theorem tickAnim_n (s : CState) :
    (tickAnim s).floors_no_traveller = s.floors_no_traveller := by
  simp only [tickAnim]; split_ifs <;> rfl

@[simp] theorem tick_pos (s : CState) :
    (tick s).current_position = s.current_position := by
  simp [tick]

@[simp] theorem tick_w (s : CState) :
    (tick s).floors_w_traveller = s.floors_w_traveller := by
  simp [tick]

@[simp] theorem tick_n (s : CState) :
    (tick s).floors_no_traveller = s.floors_no_traveller := by
  simp [tick]

/-! ## Behaviour lemmas for `handle_inputs` -/

theorem handleInputsStep_no_match {btn : Nat} {si : Int} {i : Nat} (fc : Nat)
    (sa : CState × List DispAct) (h : ¬(btn = i ∨ si = 48 + (i : Int))) :
    handleInputsStep btn si fc sa i = sa := by
  unfold handleInputsStep; rw [if_neg h]

theorem handleInputsStep_own (btn : Nat) (si : Int) {fc : Nat}
    (sa : CState × List DispAct) {i : Nat} (h : i = fc) :
    handleInputsStep btn si fc sa i = sa := by
  unfold handleInputsStep
  split_ifs with h1 h2
  · exact absurd h h2.2
  · rfl
  · rfl

theorem handleInputsStep_active (btn : Nat) (si : Int) (fc : Nat)
    {sa : CState × List DispAct} (i : Nat) (h : sa.1.traveller_active = true) :
    handleInputsStep btn si fc sa i = sa := by
  unfold handleInputsStep
  split_ifs with h1 h2
  · rw [h] at h2; exact absurd h2.1 (by simp)
  · rfl
  · rfl

theorem handleInputsStep_accept {btn : Nat} {si : Int} {fc : Nat}
    {sa : CState × List DispAct} {i : Nat}
    (hm : btn = i ∨ si = 48 + (i : Int))
    (ha : sa.1.traveller_active = false) (hne : i ≠ fc) :
    handleInputsStep btn si fc sa i =
      ({sa.1 with
          destination := floors.getD i 0,
          traveller_active := true,
          traveller_floor := floors.getD i 0,
          button_just_pushed := true},
       sa.2 ++ [⟨5, 4 * (i : Int) + 1, colours.getD fc Colour.empty⟩]) := by
  unfold handleInputsStep
  rw [if_pos hm, if_pos ⟨ha, hne⟩]

theorem handleInputs_of_active {s : CState} (btn : Nat) (si : Int) (fc : Nat)
    (h : s.traveller_active = true) :
    handleInputs btn si fc s = (s, []) := by
  have h' : ((s : CState), ([] : List DispAct)).1.traveller_active = true := h
  rw [handleInputs]
  simp only [List.foldl]
  rw [handleInputsStep_active btn si fc 0 h', handleInputsStep_active btn si fc 1 h',
      handleInputsStep_active btn si fc 2 h', handleInputsStep_active btn si fc 3 h']

/-! ## Composition lemmas for the main-loop iteration -/

@[simp] theorem mainBlock_phase (inp : MainInput) (s : CState) :
    ((mainBlock inp s).1).animation_phase = s.animation_phase := by
  unfold mainBlock; split_ifs <;> simp

@[simp] theorem mainBlock_timer (inp : MainInput) (s : CState) :
    ((mainBlock inp s).1).animation_timer = s.animation_timer := by
  unfold mainBlock; split_ifs <;> simp

@[simp] theorem mainBlock_door (inp : MainInput) (s : CState) :
    ((mainBlock inp s).1).elevator_door_open = s.elevator_door_open := by
  unfold mainBlock; split_ifs <;> simp

@[simp] theorem mainBlock_pos (inp : MainInput) (s : CState) :
    ((mainBlock inp s).1).current_position = s.current_position := by
  unfold mainBlock; split_ifs <;> simp

@[simp] theorem mainIter_phase (inp : MainInput) (s : CState) :
    ((mainIter inp s).1).animation_phase = s.animation_phase := by
  unfold mainIter; simp

@[simp] theorem mainIter_timer (inp : MainInput) (s : CState) :
    ((mainIter inp s).1).animation_timer = s.animation_timer := by
  unfold mainIter; simp

@[simp] theorem mainIter_door (inp : MainInput) (s : CState) :
    ((mainIter inp s).1).elevator_door_open = s.elevator_door_open := by
  unfold mainIter; simp

theorem mainIter_of_fjr {s : CState} (inp : MainInput)
    (h : s.floor_just_reached = true) :
    (mainIter inp s).1 = (boarding s []).1 := by
  unfold mainIter mainBlock movePhase
  simp [h]

theorem mainIter_fjr_mono {s : CState} (inp : MainInput)
    (h : s.floor_just_reached = true) :
    ((mainIter inp s).1).floor_just_reached = true := by
  rw [mainIter_of_fjr inp h, boarding_fjr]; exact h

theorem mainIter_fjr_back {s : CState} {inp : MainInput}
    (h : ((mainIter inp s).1).floor_just_reached = false) :
    s.floor_just_reached = false := by
  by_contra hc
  rw [Bool.not_eq_false] at hc
  rw [mainIter_fjr_mono inp hc] at h
  exact absurd h (by simp)

theorem mainIter_active_of_fjr {s : CState} (inp : MainInput)
    (h : s.floor_just_reached = true) :
    ((mainIter inp s).1).traveller_active = s.traveller_active := by
  rw [mainIter_of_fjr inp h, boarding_active]

theorem trigger_of_fjr {s : CState} (h : s.floor_just_reached = true) :
    trigger s = s := by
  unfold trigger
  cases s
  simp_all

/-! ## Per-phase characterisations of the interrupt step -/

theorem tick_p0 {s : CState} (hp : s.animation_phase = 0) :
    tick s =
      if 800 ≤ (tickPre s).animation_timer then
        {tickPre s with animation_phase := 1, animation_timer := 0}
      else tickPre s := by
  unfold tick tickAnim
  rw [tickPre_phase, hp, if_pos rfl]

theorem tick_p1 {s : CState} (hp : s.animation_phase = 1) :
    tick s =
      (let p := tickPre s
       let s1 :=
         if p.animation_timer = 1 then
           {p with elevator_door_open := true, sound := some 249}
         else p
       let s2 := if s1.animation_timer = 100 then {s1 with sound := none} else s1
       if 800 ≤ s2.animation_timer then {s2 with animation_phase := 2, animation_timer := 0}
       else s2) := by
  unfold tick tickAnim
  rw [tickPre_phase, hp, if_neg (by decide), if_pos rfl]
  dsimp only
  split_ifs <;> simp [tickPre_phase, hp]

theorem tick_p2 {s : CState} (hp : s.animation_phase = 2) :
    tick s =
      (let p := tickPre s
       let s1 := if p.animation_timer = 1 then {p with elevator_door_open := false} else p
       if 800 ≤ s1.animation_timer then
         {s1 with animation_phase := 0, animation_timer := 0, floor_just_reached := false}
       else s1) := by
  unfold tick tickAnim
  rw [tickPre_phase, hp, if_neg (by decide), if_neg (by decide), if_pos rfl]
  dsimp only
  split_ifs <;> simp [tickPre_phase, hp]

/-! ## The sequencer invariant is inductive -/

theorem animInv_init : AnimInv initState := by
  rw [AnimInv]; decide

theorem animInv_tick {s : CState} (h : AnimInv s) : AnimInv (tick s) := by
  obtain ⟨h1, h2, h3, h4⟩ := h
  have hphase : s.animation_phase = 0 ∨ s.animation_phase = 1 ∨ s.animation_phase = 2 := by
    omega
  cases hf : s.floor_just_reached with
  | false =>
      have hp0 := (h4 hf).1
      have ht0 := (h4 hf).2
      have hopen : s.elevator_door_open = false := by
        cases ho : s.elevator_door_open with
        | false => rfl
        | true => rcases h3.mp ho with ⟨ha, _⟩ | ⟨ha, _⟩ <;> omega
      have hpt : (tickPre s).animation_timer = s.animation_timer := by
        rw [tickPre_timer, if_neg (by simp [hf])]
      rw [AnimInv, tick_p0 hp0,
          if_neg (show ¬800 ≤ (tickPre s).animation_timer by rw [hpt]; omega)]
      refine ⟨by simp [hp0], by rw [hpt]; omega, by simp [hp0, hopen], ?_⟩
      intro hx
      exact ⟨by simp [hp0], by rw [hpt]; exact ht0⟩
  | true =>
      have hpt : (tickPre s).animation_timer = s.animation_timer + 1 := by
        rw [tickPre_timer, if_pos (by simp [hf])]
        exact Nat.mod_eq_of_lt (by omega)
      rcases hphase with hp | hp | hp
      · -- IDLE with a pending trigger: wait out the 800-tick delay
        have hopen : s.elevator_door_open = false := by
          cases ho : s.elevator_door_open with
          | false => rfl
          | true => rcases h3.mp ho with ⟨ha, _⟩ | ⟨ha, _⟩ <;> omega
        rw [AnimInv, tick_p0 hp]
        by_cases h800 : s.animation_timer = 799
        · rw [if_pos (show 800 ≤ (tickPre s).animation_timer by rw [hpt]; omega)]
          exact ⟨by simp, by simp, by simp [hopen], by simp [hf]⟩
        · rw [if_neg (show ¬800 ≤ (tickPre s).animation_timer by rw [hpt]; omega)]
          exact ⟨by simp [hp], by rw [hpt]; omega, by simp [hp, hopen], by simp [hf]⟩
      · -- OPENING
        have hdoor1 : s.elevator_door_open = true ↔ 1 ≤ s.animation_timer := by
          rw [h3]; simp [hp]
        rw [AnimInv, tick_p1 hp]
        dsimp only
        by_cases e1 : s.animation_timer = 0
        · refine ⟨?_, ?_, ?_, ?_⟩ <;> simp [hp, hf, hpt, e1]
        · have hdo : s.elevator_door_open = true := hdoor1.mpr (by omega)
          by_cases e2 : s.animation_timer = 99
          · refine ⟨?_, ?_, ?_, ?_⟩ <;> simp [hp, hf, hpt, e2, hdo]
          · by_cases e3 : s.animation_timer = 799
            · refine ⟨?_, ?_, ?_, ?_⟩ <;> simp [hp, hf, hpt, e3, hdo]
            · have c1 : s.animation_timer + 1 ≠ 1 := by omega
              have c2 : s.animation_timer + 1 ≠ 100 := by omega
              have c3 : ¬800 ≤ s.animation_timer + 1 := by omega
              refine ⟨?_, ?_, ?_, ?_⟩
              · simp [hp, hpt, c1, c2, c3]
              · simp [hpt, c1, c2, c3]; omega
              · simp [hp, hpt, c1, c2, c3, hdo]
              · simp [hf, hpt, c1, c2, c3]
      · -- CLOSING
        have hdoor2 : s.elevator_door_open = true ↔ s.animation_timer = 0 := by
          rw [h3]; simp [hp]
        rw [AnimInv, tick_p2 hp]
        dsimp only
        by_cases e1 : s.animation_timer = 0
        · refine ⟨?_, ?_, ?_, ?_⟩ <;> simp [hp, hf, hpt, e1]
        · have hdo2 : s.elevator_door_open = false := by
            cases ho : s.elevator_door_open with
            | false => rfl
            | true => exact absurd (hdoor2.mp ho) e1
          by_cases e3 : s.animation_timer = 799
          · refine ⟨?_, ?_, ?_, ?_⟩ <;> simp [hp, hf, hpt, e3, hdo2]
          · have c1 : s.animation_timer + 1 ≠ 1 := by omega
            have c3 : ¬800 ≤ s.animation_timer + 1 := by omega
            refine ⟨?_, ?_, ?_, ?_⟩
            · simp [hp, hpt, c1, c3]
            · simp [hpt, c1, c3]; omega
            · simp [hp, hpt, c1, c3, hdo2]
            · simp [hf, hpt, c1, c3]

theorem animInv_main {s : CState} (inp : MainInput) (h : AnimInv s) :
    AnimInv ((mainIter inp s).1) := by
  obtain ⟨h1, h2, h3, h4⟩ := h
  refine ⟨by simpa using h1, by simpa using h2, by simpa using h3, ?_⟩
  intro hx
  have hsf : s.floor_just_reached = false := mainIter_fjr_back hx
  have hidle := h4 hsf
  exact ⟨by rw [mainIter_phase]; exact hidle.1, by rw [mainIter_timer]; exact hidle.2⟩

theorem animInv_reachable {s : CState} (h : Reachable s) : AnimInv s := by
  induction h with
  | base => exact animInv_init
  | isr _ ih => exact animInv_tick ih
  | loop inp _ ih => exact animInv_main inp ih

theorem tick_phase_step {s : CState} (h : AnimInv s) :
    (tick s).animation_phase = s.animation_phase ∨
    (tick s).animation_phase = (s.animation_phase + 1) % 3 := by
  obtain ⟨h1, _, _, _⟩ := h
  have hphase : s.animation_phase = 0 ∨ s.animation_phase = 1 ∨ s.animation_phase = 2 := by
    omega
  rcases hphase with hp | hp | hp
  · rw [tick_p0 hp]; split_ifs <;> simp [hp]
  · rw [tick_p1 hp]; dsimp only; split_ifs <;> simp [hp]
  · rw [tick_p2 hp]; dsimp only; split_ifs <;> simp [hp]

theorem accept_only_when_idle {s : CState} {inp : MainInput}
    (hr : Reachable s) (ha : s.traveller_active = false)
    (hacc : ((mainIter inp s).1).traveller_active = true) :
    s.floor_just_reached = false ∧ s.animation_phase = 0 ∧ s.animation_timer = 0 := by
  have hsf : s.floor_just_reached = false := by
    by_contra hc
    rw [Bool.not_eq_false] at hc
    rw [mainIter_active_of_fjr inp hc, ha] at hacc
    exact absurd hacc (by simp)
  obtain ⟨_, _, _, h4⟩ := animInv_reachable hr
  exact ⟨hsf, h4 hsf⟩

theorem dropoff_fjr_mono {s : CState} (h : s.floor_just_reached = true) :
    (dropoff s).floor_just_reached = true := by
  unfold dropoff; split_ifs <;> simp [h]

theorem handleInputs_only (btn : Nat) (si : Int) (fc : Nat) (s : CState) (i : Nat)
    (hi : i < 4) (hm : btn = i ∨ si = 48 + (i : Int))
    (honly : ∀ j, j < 4 → j ≠ i → ¬(btn = j ∨ si = 48 + (j : Int))) :
    handleInputs btn si fc s =
      if s.traveller_active = false ∧ i ≠ fc then
        ({s with destination := 4 * (i : Int), traveller_active := true,
                 traveller_floor := 4 * (i : Int), button_just_pushed := true},
         [⟨5, 4 * (i : Int) + 1, colours.getD fc Colour.empty⟩])
      else (s, []) := by
  have hstep : ∀ j, j < 4 → j ≠ i → ∀ sa : CState × List DispAct,
      handleInputsStep btn si fc sa j = sa := by
    intro j hj hne sa
    exact handleInputsStep_no_match fc sa (honly j hj hne)
  have hacc : s.traveller_active = false → i ≠ fc →
      handleInputsStep btn si fc (s, []) i =
        ({s with destination := 4 * (i : Int), traveller_active := true,
                 traveller_floor := 4 * (i : Int), button_just_pushed := true},
         [⟨5, 4 * (i : Int) + 1, colours.getD fc Colour.empty⟩]) := by
    intro ha hne
    rw [handleInputsStep_accept hm ha hne]
    interval_cases i <;> simp [floors]
  have hrej : ¬(s.traveller_active = false ∧ i ≠ fc) →
      handleInputsStep btn si fc (s, []) i = (s, []) := by
    intro hc
    rcases not_and_or.mp hc with hA | hB
    · have hclean : s.traveller_active = true := by
        revert hA; cases s.traveller_active <;> simp
      exact handleInputsStep_active btn si fc i hclean
    · exact handleInputsStep_own btn si (s, []) (not_not.mp hB)
  by_cases hcond : s.traveller_active = false ∧ i ≠ fc
  · rw [if_pos hcond]
    interval_cases i <;>
    · rw [handleInputs]
      simp only [List.foldl]
      first
      | rw [hacc hcond.1 hcond.2,
            hstep 1 (by omega) (by omega), hstep 2 (by omega) (by omega),
            hstep 3 (by omega) (by omega)]
      | rw [hstep 0 (by omega) (by omega), hacc hcond.1 hcond.2,
            hstep 2 (by omega) (by omega), hstep 3 (by omega) (by omega)]
      | rw [hstep 0 (by omega) (by omega), hstep 1 (by omega) (by omega),
            hacc hcond.1 hcond.2, hstep 3 (by omega) (by omega)]
      | rw [hstep 0 (by omega) (by omega), hstep 1 (by omega) (by omega),
            hstep 2 (by omega) (by omega), hacc hcond.1 hcond.2]
  · rw [if_neg hcond]
    interval_cases i <;>
    · rw [handleInputs]
      simp only [List.foldl]
      first
      | rw [hrej hcond,
            hstep 1 (by omega) (by omega), hstep 2 (by omega) (by omega),
            hstep 3 (by omega) (by omega)]
      | rw [hstep 0 (by omega) (by omega), hrej hcond,
            hstep 2 (by omega) (by omega), hstep 3 (by omega) (by omega)]
      | rw [hstep 0 (by omega) (by omega), hstep 1 (by omega) (by omega),
            hrej hcond, hstep 3 (by omega) (by omega)]
      | rw [hstep 0 (by omega) (by omega), hstep 1 (by omega) (by omega),
            hstep 2 (by omega) (by omega), hrej hcond]

/-! ## Claim theorems -/

/-- Claim C1: in every main-loop iteration whose movement block runs (move
interval elapsed and `floor_just_reached` false), `current_position` moves by
exactly one coordinate unit toward `destination` — incremented when the
destination is above, decremented when below, unchanged when equal — and
`current_position` is never changed while `floor_just_reached` is true
(neither by a main-loop iteration nor by the interrupt). -/
theorem c1_car_motion_step (s : CState) (inp : MainInput) :
    (s.floor_just_reached = false → inp.moveElapsed = true →
      ((s.current_position < s.destination →
          ((mainIter inp s).1).current_position = s.current_position + 1) ∧
       (s.destination < s.current_position →
          ((mainIter inp s).1).current_position = s.current_position - 1) ∧
       (s.destination = s.current_position →
          ((mainIter inp s).1).current_position = s.current_position))) ∧
    (s.floor_just_reached = true →
      ((mainIter inp s).1).current_position = s.current_position) ∧
    (tick s).current_position = s.current_position := by
  have hm : ((mainIter inp s).1).current_position =
      (movePhase inp.moveElapsed s).current_position := by
    unfold mainIter
    simp
  refine ⟨?_, ?_, by simp⟩
  · intro hf he
    rw [hm]
    unfold movePhase
    rw [if_pos (And.intro he hf)]
    refine ⟨fun hc => ?_, fun hc => ?_, fun hc => ?_⟩
    · show moveStep s.current_position s.destination = s.current_position + 1
      unfold moveStep
      rw [if_pos (show (0 : Int) < s.destination - s.current_position by omega)]
    · show moveStep s.current_position s.destination = s.current_position - 1
      unfold moveStep
      rw [if_neg (show ¬(0 : Int) < s.destination - s.current_position by omega),
          if_pos (show s.destination - s.current_position < 0 by omega)]
    · show moveStep s.current_position s.destination = s.current_position
      unfold moveStep
      rw [if_neg (show ¬(0 : Int) < s.destination - s.current_position by omega),
          if_neg (show ¬s.destination - s.current_position < 0 by omega)]
  · intro hf
    rw [hm]
    unfold movePhase
    rw [if_neg (show ¬(inp.moveElapsed = true ∧ s.floor_just_reached = false) by
      simp [hf])]

/-- Witness for C1: from the initial state with destination coordinate 4, a
movement iteration advances the car from 0 to 1; with the animation flag
set, an iteration leaves the position unchanged. -/
theorem c1_car_motion_step_witness :
    ((mainIter ⟨true, 255, -1, 0⟩ {initState with destination := 4}).1).current_position =
      {initState with destination := 4}.current_position + 1 ∧
    ((mainIter ⟨false, 255, -1, 0⟩
        {initState with floor_just_reached := true}).1).current_position =
      {initState with floor_just_reached := true}.current_position := by
  constructor
  · exact ((c1_car_motion_step {initState with destination := 4}
      ⟨true, 255, -1, 0⟩).1 rfl rfl).1 (by decide)
  · exact (c1_car_motion_step {initState with floor_just_reached := true}
      ⟨false, 255, -1, 0⟩).2.1 rfl

/-- Claim C2: in every reachable state the sequencer phase is one of
IDLE(0)/OPENING(1)/CLOSING(2); an interrupt moves the phase only to itself
or to its successor in the IDLE→OPENING→CLOSING→IDLE cycle and a main-loop
iteration never moves it; `elevator_door_open` holds exactly from the first
tick of OPENING (phase 1, timer ≥ 1) through tick 0 of CLOSING (phase 2,
timer 0); and a trigger arriving during OPENING or CLOSING is a no-op. -/
theorem c2_sequencer_invariant : ∀ s : CState, Reachable s → SeqInv s := by
  intro s hr
  obtain ⟨h1, h2, h3, h4⟩ := animInv_reachable hr
  refine ⟨h1, h3, tick_phase_step ⟨h1, h2, h3, h4⟩, fun inp => mainIter_phase inp s, ?_⟩
  intro hp
  apply trigger_of_fjr
  by_contra hc
  rw [Bool.not_eq_true] at hc
  have := h4 hc
  rcases hp with hp | hp <;> omega

/-- Witness for C2: the initial state is reachable and satisfies the
sequencer invariant. -/
theorem c2_sequencer_invariant_witness : Reachable initState ∧ SeqInv initState :=
  ⟨Reachable.base, c2_sequencer_invariant initState Reachable.base⟩

/-- Claim C3: a request selecting floor `i` (by button or serial digit, with
no other floor selected in the same call) is accepted iff no traveller is
active and `i` differs from the switch-selected `floor_choice`; on
acceptance the handler sets `traveller_active`, records
`traveller_floor = 4*i`, aims `destination` at the pickup coordinate `4*i`,
renders the waiting marker at column 5, row `4*i+1`, coloured
`TRAVELLER_TO_floor_choice`, and arms the button feedback timer by raising
`button_just_pushed`. -/
theorem c3_request_acceptance (s : CState) (btn : Nat) (si : Int) (fc : Nat) (i : Nat)
    (hi : i < 4) (hfc : fc < 4)
    (hm : btn = i ∨ si = 48 + (i : Int))
    (honly : ∀ j, j < 4 → j ≠ i → ¬(btn = j ∨ si = 48 + (j : Int))) :
    (((handleInputs btn si fc s).1.traveller_active = true ∧
        s.traveller_active = false) ↔
      (s.traveller_active = false ∧ i ≠ fc)) ∧
    (s.traveller_active = false → i ≠ fc →
      (handleInputs btn si fc s).1.traveller_active = true ∧
      (handleInputs btn si fc s).1.traveller_floor = 4 * (i : Int) ∧
      (handleInputs btn si fc s).1.destination = 4 * (i : Int) ∧
      (handleInputs btn si fc s).1.button_just_pushed = true ∧
      (handleInputs btn si fc s).2 = [⟨5, 4 * (i : Int) + 1, Colour.travellerTo fc⟩]) := by
  have hd := handleInputs_only btn si fc s i hi hm honly
  constructor
  · constructor
    · rintro ⟨hact, hprev⟩
      refine ⟨hprev, ?_⟩
      by_contra hne
      rw [hd, if_neg (show ¬(s.traveller_active = false ∧ i ≠ fc) from
        fun hc => hc.2 hne)] at hact
      have : s.traveller_active = true := hact
      rw [hprev] at this
      exact absurd this (by simp)
    · rintro ⟨hprev, hne⟩
      rw [hd, if_pos ⟨hprev, hne⟩]
      exact ⟨rfl, hprev⟩
  · intro hprev hne
    rw [hd, if_pos ⟨hprev, hne⟩]
    refine ⟨rfl, rfl, rfl, rfl, ?_⟩
    have hcol : colours.getD fc Colour.empty = Colour.travellerTo fc := by
      interval_cases fc <;> rfl
    rw [hcol]

/-- Witness for C3: from the initial state, button 1 with switches at floor
0 places a traveller at coordinate 4 with the marker at (5,5) coloured for
floor 0, and arms the feedback timer. -/
theorem c3_request_acceptance_witness :
    (handleInputs 1 (-1) 0 initState).1.traveller_active = true ∧
    (handleInputs 1 (-1) 0 initState).1.traveller_floor = 4 ∧
    (handleInputs 1 (-1) 0 initState).1.destination = 4 ∧
    (handleInputs 1 (-1) 0 initState).1.button_just_pushed = true ∧
    (handleInputs 1 (-1) 0 initState).2 = [⟨5, 5, Colour.travellerTo 0⟩] := by
  have h := (c3_request_acceptance initState 1 (-1) 0 1 (by decide) (by decide)
    (Or.inl rfl) (by decide)).2 rfl (by decide)
  simpa using h

/-- Claim C4: a call to the request handler in which a traveller is already
active, or in which every selected floor equals the switch-selected
destination, has no effect at all: the state is returned unchanged (in
particular `traveller_active`, `traveller_onboard`, `traveller_floor`,
`destination` and the feedback-timer flag) and no display write is issued —
rejection is silent. -/
theorem c4_silent_rejection (s : CState) (btn : Nat) (si : Int) (fc : Nat)
    (h : s.traveller_active = true ∨
         ∀ j, j < 4 → (btn = j ∨ si = 48 + (j : Int)) → j = fc) :
    (handleInputs btn si fc s).1 = s ∧ (handleInputs btn si fc s).2 = [] := by
  rcases h with hA | hB
  · rw [handleInputs_of_active btn si fc hA]
    exact ⟨rfl, rfl⟩
  · have step_id : ∀ j, j < 4 → ∀ sa : CState × List DispAct,
        handleInputsStep btn si fc sa j = sa := by
      intro j hj sa
      by_cases hmj : btn = j ∨ si = 48 + (j : Int)
      · exact handleInputsStep_own btn si sa (hB j hj hmj)
      · exact handleInputsStep_no_match fc sa hmj
    rw [handleInputs]
    simp only [List.foldl]
    rw [step_id 0 (by omega), step_id 1 (by omega), step_id 2 (by omega),
        step_id 3 (by omega)]
    exact ⟨rfl, rfl⟩

/-- Witness for C4: pressing button 2 while the switches also select floor
2 leaves the initial state untouched and renders nothing. -/
theorem c4_silent_rejection_witness :
    (handleInputs 2 (-1) 2 initState).1 = initState ∧
    (handleInputs 2 (-1) 2 initState).2 = [] :=
  c4_silent_rejection initState 2 (-1) 2 (Or.inr (by decide))


/-! ## Counting out the sequencer phases tick by tick -/

theorem ticks_add (m n : Nat) (s : CState) :
    ticks (m + n) s = ticks m (ticks n s) := by
  induction m with
  | zero => rw [Nat.zero_add]; rfl
  | succ p ih =>
      rw [Nat.succ_add]
      show tick (ticks (p + n) s) = tick (ticks p (ticks n s))
      rw [ih]

theorem idleAt_zero : idleAt 0 = trigger initState := by decide

theorem tick_idleAt {k : Nat} (hk : k ≤ 798) : tick (idleAt k) = idleAt (k + 1) := by
  have hp : (idleAt k).animation_phase = 0 := rfl
  rw [tick_p0 hp]
  have hpt : (tickPre (idleAt k)).animation_timer = k + 1 := by
    rw [tickPre_timer]
    have hlt : (k + 1) % 65536 = k + 1 := Nat.mod_eq_of_lt (by omega)
    simp [idleAt, initState, hlt]
  rw [if_neg (show ¬800 ≤ (tickPre (idleAt k)).animation_timer by rw [hpt]; omega)]
  have hd : 1 - k % 2 = (k + 1) % 2 := by omega
  have hlt : (k + 1) % 65536 = k + 1 := Nat.mod_eq_of_lt (by omega)
  simp [tickPre, idleAt, initState, hd, hlt]

theorem ticks_idleAt {k : Nat} (hk : k ≤ 799) :
    ticks k (trigger initState) = idleAt k := by
  induction k with
  | zero => exact idleAt_zero.symm
  | succ n ih =>
      show tick (ticks n (trigger initState)) = idleAt (n + 1)
      rw [ih (by omega), tick_idleAt (by omega)]

theorem ticks_800_trigger : ticks 800 (trigger initState) = openingEntry := by
  show tick (ticks 799 (trigger initState)) = openingEntry
  rw [ticks_idleAt (by omega)]
  decide

theorem tick_openingEntry : tick openingEntry = openingAt 1 := by decide

theorem tick_openingAt {k : Nat} (h1 : 1 ≤ k) (h2 : k ≤ 798) :
    tick (openingAt k) = openingAt (k + 1) := by
  by_cases h99 : k = 99
  · subst h99
    decide
  · have hp : (openingAt k).animation_phase = 1 := rfl
    rw [tick_p1 hp]
    dsimp only
    have hlt : (k + 1) % 65536 = k + 1 := Nat.mod_eq_of_lt (by omega)
    have hpt : (tickPre (openingAt k)).animation_timer = k + 1 := by
      rw [tickPre_timer]
      simp [openingAt, openingEntry, initState, hlt]
    rw [if_neg (show ¬(tickPre (openingAt k)).animation_timer = 1 by rw [hpt]; omega)]
    rw [if_neg (show ¬(tickPre (openingAt k)).animation_timer = 100 by rw [hpt]; omega)]
    rw [if_neg (show ¬800 ≤ (tickPre (openingAt k)).animation_timer by rw [hpt]; omega)]
    have hd : 1 - k % 2 = (k + 1) % 2 := by omega
    have hsnd : ((if k ≤ 99 then some 249 else none) : Option Nat) =
        (if k + 1 ≤ 99 then some 249 else none) := by
      rcases Nat.lt_or_ge k 99 with h | h
      · rw [if_pos (by omega), if_pos (by omega)]
      · rw [if_neg (by omega), if_neg (by omega)]
    simp [tickPre, openingAt, openingEntry, initState, hd, hlt, hsnd]

theorem ticks_openingAt {k : Nat} (h1 : 1 ≤ k) (h2 : k ≤ 799) :
    ticks k openingEntry = openingAt k := by
  induction k with
  | zero => omega
  | succ n ih =>
      by_cases hn : n = 0
      · subst hn
        exact tick_openingEntry
      · show tick (ticks n openingEntry) = openingAt (n + 1)
        rw [ih (by omega) (by omega), tick_openingAt (by omega) (by omega)]

/-- Counterexample to claim C5: a trigger raised in the idle initial state
does not transition the sequencer to OPENING at the trigger — even 400
ticks later the phase is still IDLE(0) and the doors are still closed, so
the door-opening phase does not begin with the trigger. -/
theorem c5_counterexample :
    (trigger initState).animation_phase = 0 ∧
    (ticks 400 (trigger initState)).animation_phase = 0 ∧
    (ticks 400 (trigger initState)).elevator_door_open = false := by
  rw [ticks_idleAt (by omega)]
  exact ⟨rfl, rfl, rfl⟩

/-- Claim C5 as amended: a trigger in the idle state leaves the sequencer
in IDLE; the phase tick counter (0 after the previous cycle) merely starts
counting at the trigger, the transition to OPENING happens only on the
800th tick after the trigger (resetting the counter), and the doors open
on the following tick. -/
theorem c5_amended_idle_delay :
    (ticks 799 (trigger initState)).animation_phase = 0 ∧
    (ticks 800 (trigger initState)).animation_phase = 1 ∧
    (ticks 800 (trigger initState)).animation_timer = 0 ∧
    (ticks 801 (trigger initState)).elevator_door_open = true := by
  refine ⟨?_, ?_, ?_, ?_⟩
  · rw [ticks_idleAt (by omega)]; rfl
  · rw [ticks_800_trigger]; rfl
  · rw [ticks_800_trigger]; rfl
  · rw [show (801 : Nat) = 1 + 800 from rfl, ticks_add, ticks_800_trigger]
    show (tick openingEntry).elevator_door_open = true
    rw [tick_openingEntry]
    rfl

/-- Counterexample to claim C6: during the OPENING phase (entered 800 ticks
after a trigger from the initial state) the pickup/dropoff tone is playing
at tick 99 but already stopped at tick 100 — one eighth of the 800-tick
phase, not half of it — while the phase is still OPENING; at the claimed
stopping point, tick 400, the tone has long been off. -/
theorem c6_counterexample :
    (ticks 99 (ticks 800 (trigger initState))).sound = some 249 ∧
    (ticks 100 (ticks 800 (trigger initState))).sound = none ∧
    (ticks 100 (ticks 800 (trigger initState))).animation_phase = 1 ∧
    (ticks 400 (ticks 800 (trigger initState))).sound = none ∧
    (ticks 400 (ticks 800 (trigger initState))).animation_phase = 1 := by
  rw [ticks_800_trigger, ticks_openingAt (by omega) (by omega),
      ticks_openingAt (by omega) (by omega), ticks_openingAt (by omega) (by omega)]
  exact ⟨rfl, rfl, rfl, rfl, rfl⟩

/-- Claim C6 as amended: on the first tick of OPENING the doors open and
the 500 Hz pickup/dropoff tone starts; the tone is stopped at tick 100 of
the 800-tick phase (50 ms, an eighth of the phase, as the source comment
says), and the transition to CLOSING occurs at the phase's end, tick 800,
resetting the tick counter. -/
theorem c6_amended_opening_tone :
    (ticks 1 (ticks 800 (trigger initState))).sound = some 249 ∧
    (ticks 1 (ticks 800 (trigger initState))).elevator_door_open = true ∧
    (ticks 99 (ticks 800 (trigger initState))).sound = some 249 ∧
    (ticks 100 (ticks 800 (trigger initState))).sound = none ∧
    (ticks 799 (ticks 800 (trigger initState))).animation_phase = 1 ∧
    (ticks 800 (ticks 800 (trigger initState))).animation_phase = 2 ∧
    (ticks 800 (ticks 800 (trigger initState))).animation_timer = 0 := by
  have h800 : ticks 800 openingEntry = tick (openingAt 799) := by
    show tick (ticks 799 openingEntry) = tick (openingAt 799)
    rw [ticks_openingAt (by omega) (by omega)]
  rw [ticks_800_trigger, ticks_openingAt (by omega) (by omega),
      ticks_openingAt (by omega) (by omega), ticks_openingAt (by omega) (by omega),
      h800, ticks_openingAt (by omega) (by omega)]
  refine ⟨rfl, rfl, rfl, rfl, rfl, ?_, ?_⟩ <;> decide

/-- Counterexample to claim C7: a traveller is accepted at floor 1 with the
switches selecting floor 2 (coordinate 8) — the marker colour
`TRAVELLER_TO_2` records that request — but when the car reaches the pickup
floor four move-iterations later with the switches now at floor 3,
`destination` is set to 12, the freshly sampled switch value, not to the
coordinate 8 requested when the request was accepted. -/
theorem c7_counterexample :
    (mainIter ⟨false, 1, -1, 2⟩ initState).2 = [⟨5, 5, Colour.travellerTo 2⟩] ∧
    (runMain [⟨false, 1, -1, 2⟩, ⟨true, 255, -1, 3⟩, ⟨true, 255, -1, 3⟩,
              ⟨true, 255, -1, 3⟩, ⟨true, 255, -1, 3⟩] initState).destination = 12 ∧
    (runMain [⟨false, 1, -1, 2⟩, ⟨true, 255, -1, 3⟩, ⟨true, 255, -1, 3⟩,
              ⟨true, 255, -1, 3⟩, ⟨true, 255, -1, 3⟩] initState).floor_just_reached
      = true ∧
    (12 : Int) ≠ 8 := by
  refine ⟨?_, ?_, ?_, ?_⟩ <;> decide

/-- Claim C7 as amended: in a main-loop iteration where no animation is in
progress, a traveller is active and not yet onboard, and the car's position
(after the movement block) equals the traveller's origin coordinate, the
iteration reassigns `destination` to `floor_choice * 4` — the coordinate
selected by the switches as sampled in that iteration, which coincides with
the originally requested destination only while the switches are unchanged
— and triggers the door sequencer by raising `floor_just_reached`. -/
theorem c7_amended_pickup (s : CState) (inp : MainInput)
    (hf : s.floor_just_reached = false)
    (ha : s.traveller_active = true)
    (hb : s.traveller_onboard = false)
    (hp : (movePhase inp.moveElapsed s).current_position = s.traveller_floor) :
    ((mainIter inp s).1).destination = (inp.floor_choice : Int) * 4 ∧
    ((mainIter inp s).1).floor_just_reached = true := by
  have e2 : (mainBlock inp (movePhase inp.moveElapsed s)).1 =
      dropoff (pickupTrigger (handleDisplays
        (pickupAssign inp.floor_choice (movePhase inp.moveElapsed s)))) := by
    unfold mainBlock
    rw [if_pos (show (movePhase inp.moveElapsed s).floor_just_reached = false by
      rw [movePhase_fjr]; exact hf)]
    dsimp only
    rw [handleInputs_of_active inp.btn inp.serial_input inp.floor_choice
      (show (movePhase inp.moveElapsed s).traveller_active = true by
        rw [movePhase_active]; exact ha)]
  have hassign : pickupAssign inp.floor_choice (movePhase inp.moveElapsed s) =
      {movePhase inp.moveElapsed s with
         destination := (inp.floor_choice : Int) * 4} := by
    unfold pickupAssign
    rw [if_pos (And.intro
      (show (movePhase inp.moveElapsed s).traveller_active = true by
        rw [movePhase_active]; exact ha)
      (show (movePhase inp.moveElapsed s).traveller_floor =
          (movePhase inp.moveElapsed s).current_position by
        rw [movePhase_tf, hp]))]
  constructor
  · have e1 : ((mainIter inp s).1).destination =
        ((mainBlock inp (movePhase inp.moveElapsed s)).1).destination := by
      unfold mainIter
      rw [boarding_dest]
    rw [e1, e2, dropoff_dest, pickupTrigger_dest, handleDisplays_dest, hassign]
  · have e1 : ((mainIter inp s).1).floor_just_reached =
        ((mainBlock inp (movePhase inp.moveElapsed s)).1).floor_just_reached := by
      unfold mainIter
      rw [boarding_fjr]
    rw [e1, e2]
    apply dropoff_fjr_mono
    unfold pickupTrigger
    rw [if_pos (And.intro
      (show (handleDisplays (pickupAssign inp.floor_choice
          (movePhase inp.moveElapsed s))).traveller_active = true by
        rw [handleDisplays_active, pickupAssign_active, movePhase_active]; exact ha)
      (show (handleDisplays (pickupAssign inp.floor_choice
          (movePhase inp.moveElapsed s))).traveller_floor =
          (handleDisplays (pickupAssign inp.floor_choice
            (movePhase inp.moveElapsed s))).current_position by
        rw [handleDisplays_tf, pickupAssign_tf, movePhase_tf,
            handleDisplays_pos, pickupAssign_pos, hp]))]

/-- Witness for C7 as amended: with a traveller active at coordinate 0 and
the car already there, an iteration with the switches at floor 1 sets the
destination to 4 and raises the animation flag. -/
theorem c7_amended_pickup_witness :
    ((mainIter ⟨false, 255, -1, 1⟩
        {initState with traveller_active := true}).1).destination = 4 ∧
    ((mainIter ⟨false, 255, -1, 1⟩
        {initState with traveller_active := true}).1).floor_just_reached = true := by
  have h := c7_amended_pickup {initState with traveller_active := true}
    ⟨false, 255, -1, 1⟩ rfl rfl rfl (by decide)
  simpa using h

/-- Counterexample to claim C8: the travel counters are 8-bit. In a state
whose sticky floor changes (car on coordinate 4, `old_floor` 0) with
`floors_no_traveller` at 255, the increment performed by `handle_displays`
wraps the counter to 0 — a decrease from 255 — so the counters are not
monotonic over every run. -/
theorem c8_counterexample :
    stickyFloor {initState with current_position := 4, floors_no_traveller := 255} ≠
      {initState with current_position := 4, floors_no_traveller := 255}.old_floor ∧
    (handleDisplays {initState with
        current_position := 4, floors_no_traveller := 255}).floors_no_traveller = 0 ∧
    ¬255 ≤ (handleDisplays {initState with
        current_position := 4, floors_no_traveller := 255}).floors_no_traveller := by
  refine ⟨?_, ?_, ?_⟩ <;> decide

/-- Claim C8 as amended: on every `handle_displays` call, if the sticky
floor changes then exactly one of the two travel counters is incremented by
one modulo 256 (`floors_w_traveller` iff the traveller is onboard, else
`floors_no_traveller`) and the other is unchanged; if it does not change,
both are unchanged; the code never explicitly decrements or resets them
(and the interrupt never touches them), so below 255 they are monotonic,
but the 8-bit increment wraps 255 to 0. -/
theorem c8_travel_counters (s : CState) :
    (stickyFloor s ≠ s.old_floor →
      (s.traveller_onboard = true →
        (handleDisplays s).floors_w_traveller = (s.floors_w_traveller + 1) % 256 ∧
        (handleDisplays s).floors_no_traveller = s.floors_no_traveller) ∧
      (s.traveller_onboard = false →
        (handleDisplays s).floors_no_traveller = (s.floors_no_traveller + 1) % 256 ∧
        (handleDisplays s).floors_w_traveller = s.floors_w_traveller)) ∧
    (stickyFloor s = s.old_floor →
      (handleDisplays s).floors_w_traveller = s.floors_w_traveller ∧
      (handleDisplays s).floors_no_traveller = s.floors_no_traveller) ∧
    (s.floors_w_traveller < 255 →
      s.floors_w_traveller ≤ (handleDisplays s).floors_w_traveller) ∧
    (s.floors_no_traveller < 255 →
      s.floors_no_traveller ≤ (handleDisplays s).floors_no_traveller) ∧
    (tick s).floors_w_traveller = s.floors_w_traveller ∧
    (tick s).floors_no_traveller = s.floors_no_traveller := by
  have hw : (handleDisplays s).floors_w_traveller =
      if s.old_floor ≠ stickyFloor s ∧ s.traveller_onboard = true then
        (s.floors_w_traveller + 1) % 256
      else s.floors_w_traveller := rfl
  have hn : (handleDisplays s).floors_no_traveller =
      if s.old_floor ≠ stickyFloor s ∧ s.traveller_onboard = false then
        (s.floors_no_traveller + 1) % 256
      else s.floors_no_traveller := rfl
  refine ⟨?_, ?_, ?_, ?_, by simp, by simp⟩
  · intro hch
    constructor
    · intro hob
      rw [hw, if_pos (And.intro (Ne.symm hch) hob), hn,
          if_neg (show ¬(s.old_floor ≠ stickyFloor s ∧ s.traveller_onboard = false) by
            simp [hob])]
      exact ⟨rfl, rfl⟩
    · intro hob
      rw [hn, if_pos (And.intro (Ne.symm hch) hob), hw,
          if_neg (show ¬(s.old_floor ≠ stickyFloor s ∧ s.traveller_onboard = true) by
            simp [hob])]
      exact ⟨rfl, rfl⟩
  · intro hch
    rw [hw, if_neg (show ¬(s.old_floor ≠ stickyFloor s ∧ s.traveller_onboard = true) by
          simp [hch]),
        hn, if_neg (show ¬(s.old_floor ≠ stickyFloor s ∧ s.traveller_onboard = false) by
          simp [hch])]
    exact ⟨rfl, rfl⟩
  · intro hlt
    rw [hw]
    split_ifs with hc
    · rw [Nat.mod_eq_of_lt (by omega)]; omega
    · omega
  · intro hlt
    rw [hn]
    split_ifs with hc
    · rw [Nat.mod_eq_of_lt (by omega)]; omega
    · omega

/-- Witness for C8 as amended: a sticky floor change with no traveller
onboard increments `floors_no_traveller` from 0 to 1 and leaves
`floors_w_traveller` at 0. -/
theorem c8_travel_counters_witness :
    stickyFloor {initState with current_position := 4} ≠
      {initState with current_position := 4}.old_floor ∧
    (handleDisplays {initState with current_position := 4}).floors_no_traveller =
      (0 + 1) % 256 ∧
    (handleDisplays {initState with current_position := 4}).floors_w_traveller = 0 := by
  have h := ((c8_travel_counters {initState with current_position := 4}).1
    (by decide)).2 rfl
  exact ⟨by decide, h.1, h.2⟩

/-- Counterexample to claim C9: no reachable execution accepts a new
traveller request while the drop-off door animation is still playing. A
request can only be accepted inside the `!floor_just_reached` block, so any
iteration that turns `traveller_active` on starts with
`floor_just_reached` false, and by the sequencer invariant the phase is
then IDLE — contradicting the claimed existence of an acceptance during
the animation (flag still raised or phase not IDLE). -/
theorem c9_counterexample :
    ¬∃ (s : CState) (inp : MainInput),
        Reachable s ∧ s.traveller_active = false ∧
        ((mainIter inp s).1).traveller_active = true ∧
        (s.floor_just_reached = true ∨ s.animation_phase ≠ 0) := by
  rintro ⟨s, inp, hr, ha, hacc, hbad⟩
  obtain ⟨hf, hp, -⟩ := accept_only_when_idle hr ha hacc
  rcases hbad with hb | hb
  · rw [hf] at hb
    exact absurd hb (by simp)
  · exact hb hp

/-- Claim C9 as amended: although dropoff clears `traveller_active` and
`traveller_onboard` already at trigger time, a new request can never be
accepted while the drop-off animation is playing, because the input
handler runs only when `floor_just_reached` is false; any reachable
main-loop iteration that accepts a request therefore starts with the
sequencer fully idle (flag down, phase IDLE, timer 0). -/
theorem c9_amended_accept_only_idle (s : CState) (inp : MainInput)
    (hr : Reachable s) (ha : s.traveller_active = false)
    (hacc : ((mainIter inp s).1).traveller_active = true) :
    s.floor_just_reached = false ∧ s.animation_phase = 0 ∧ s.animation_timer = 0 :=
  accept_only_when_idle hr ha hacc

/-- Witness for C9 as amended: the initial state is reachable and accepts
the request "button 0, switches at floor 1", and it is indeed fully idle. -/
theorem c9_amended_accept_only_idle_witness :
    Reachable initState ∧ initState.traveller_active = false ∧
    ((mainIter ⟨false, 0, -1, 1⟩ initState).1).traveller_active = true ∧
    (initState.floor_just_reached = false ∧ initState.animation_phase = 0 ∧
      initState.animation_timer = 0) :=
  ⟨Reachable.base, rfl, by decide,
   c9_amended_accept_only_idle initState ⟨false, 0, -1, 1⟩ Reachable.base rfl
     (by decide)⟩

/-- Claim C10: when a button press for floor `i` and a serial digit for a
different floor `j` arrive in the same `handle_inputs` call, both differing
from the switch-selected destination and with no traveller active, exactly
one traveller is created: the loop accepts the lower floor index
`min i j` (placing `traveller_floor` and `destination` at its coordinate
and issuing exactly one marker write), and the other selection is rejected
because `traveller_active` is already set by then. -/
theorem c10_simultaneous_inputs (s : CState) (fc i j : Nat)
    (hi : i < 4) (hj : j < 4) (hij : i ≠ j)
    (hif : i ≠ fc) (hjf : j ≠ fc)
    (ha : s.traveller_active = false) :
    (handleInputs i (48 + (j : Int)) fc s).1.traveller_active = true ∧
    (handleInputs i (48 + (j : Int)) fc s).1.traveller_floor =
      4 * ((min i j : Nat) : Int) ∧
    (handleInputs i (48 + (j : Int)) fc s).1.destination =
      4 * ((min i j : Nat) : Int) ∧
    (handleInputs i (48 + (j : Int)) fc s).2.length = 1 := by
  interval_cases i <;> interval_cases j <;>
    first
    | exact absurd rfl hij
    | (refine ⟨?_, ?_, ?_, ?_⟩ <;>
        simp [handleInputs, List.foldl, handleInputsStep, ha, hif, hjf, floors])

/-- Witness for C10: button 0 together with serial digit '1' (49), switches
at floor 2, creates exactly one traveller, at floor 0. -/
theorem c10_simultaneous_inputs_witness :
    (handleInputs 0 49 2 initState).1.traveller_active = true ∧
    (handleInputs 0 49 2 initState).1.traveller_floor = 0 ∧
    (handleInputs 0 49 2 initState).1.destination = 0 ∧
    (handleInputs 0 49 2 initState).2.length = 1 := by
  have h := c10_simultaneous_inputs initState 2 0 1 (by decide) (by decide)
    (by decide) (by decide) (by decide) rfl
  simpa using h
